import Mathlib

set_option linter.unusedVariables false

/-!
Verification model of the `system_tray` crate (`src/lib.rs`, `src/error.rs`).

The crate is a thread-safe façade over a native (Qt) system-tray API.  We
shallowly embed it: caller-supplied Rust strings are byte lists, the session
struct is a record, and every operation is a pure function that returns both
its result and the trace of observable actions it performs, in order — mutex
acquisitions and releases on the two `Mutex` cells (`handle` and `instance`),
calls into the generated `bind` module (the native collaborator), thread
spawns, joins, and the ownership transfer performed by `CString::from_raw`.
-/

namespace SystemTrayModel

/-- Rust strings (and C-string payloads) as lists of bytes. -/
abbrev Bytes := List Nat

/-- The error enum of `src/error.rs`.  `Ffi` wraps `std::ffi::NulError`,
modelled by the position of the offending interior NUL byte;
`PollEventError` carries the formatted diagnostic message. -/
inductive SystemTrayError where
  | SendError : SystemTrayError
  | Ffi (nulPosition : Nat) : SystemTrayError
  | PollEventError (msg : String) : SystemTrayError
  deriving DecidableEq, Repr

/-- The public event enum of `src/lib.rs`.  The menu identifier is the decoded
Rust `String`, given as its list of Unicode code points. -/
inductive Event where
  | None : Event
  | TrayClicked : Event
  | TrayDoubleClicked : Event
  | MenuItemClicked (id : List Nat) : Event
  deriving DecidableEq, Repr

/-- Entry points of the native collaborator (the `bind` module) that
`src/lib.rs` invokes, with the data forwarded to each. -/
inductive NativeCall where
  | create_qt_app : NativeCall
  | set_organization_name (org : Bytes) : NativeCall
  | set_app_id (appId : Bytes) : NativeCall
  | init_tray : NativeCall
  | add_tray_menu_item (text id : Bytes) : NativeCall
  | set_app_icon_from_data (data : Bytes) (len : Nat) (format : Bytes) : NativeCall
  | run_qt_app (ptr : Nat) : NativeCall
  | request_quit_qt_app_safe : NativeCall
  | poll_event : NativeCall
  | free_char_ptr : NativeCall
  | cleanup_qt_app : NativeCall
  deriving DecidableEq, Repr

/-- Observable actions of an operation, in program order: acquiring and
releasing the `handle` mutex, acquiring and releasing the `instance` mutex,
calling into the native collaborator, spawning the background thread,
joining it, and taking ownership of a native string allocation via
`CString::from_raw`. -/
inductive Action where
  | lockHandle : Action
  | unlockHandle : Action
  | lockInstance : Action
  | unlockInstance : Action
  | native (c : NativeCall) : Action
  | spawn : Action
  | joinTask : Action
  | takeOwnership : Action
  deriving DecidableEq, Repr

/-- The shared state behind a `SystemTray` value: the `SafeQtAppHandle`
pointer stored in the `handle` cell (0 models a null pointer), the contents
of the `instance` cell (the recorded background task, if any), a counter
producing fresh task identities for `thread::spawn`, the list of tasks
spawned so far, and the join handles that were overwritten without being
joined (dropping a `JoinHandle` detaches the thread). -/
structure SystemTrayState where
  handle : Nat
  «instance» : Option Nat
  nextTask : Nat
  spawned : List Nat
  detached : List Nat
  deriving DecidableEq, Repr

/-- The event struct returned by the native `bind::poll_event`: the raw
discriminant and the C-string payload (its NUL-free byte content), read only
on the menu-item-clicked path. -/
structure AppEvent where
  type_ : Nat
  menu_id_str : Bytes
  deriving DecidableEq, Repr

/-- Modelled from the spec: the event-type discriminants come from the
generated `bind` module, whose source (the native header) is not under
`src/`; per the spec they are four distinct values for no-event,
tray-clicked, tray-double-clicked and menu-item-clicked. -/
def AppEventType_None : Nat := 0

/-- Modelled from the spec: discriminant for a tray single click. -/
def AppEventType_TrayClicked : Nat := 1

/-- Modelled from the spec: discriminant for a tray double click. -/
def AppEventType_TrayDoubleClicked : Nat := 2

/-- Modelled from the spec: discriminant for a menu-item click, which
additionally carries an owned native string payload. -/
def AppEventType_MenuItemClicked : Nat := 3

/-- `CString::new`: fails with `NulError` exactly when the byte list contains
an interior NUL, reporting its position; otherwise the bytes pass through
unchanged (no truncation). -/
def cstringNew (s : Bytes) : Except SystemTrayError Bytes :=
  if 0 ∈ s then .error (.Ffi (s.indexOf 0)) else .ok s

/-- Whether a byte is a UTF-8 continuation byte. -/
def isCont (b : Nat) : Bool := decide (0x80 ≤ b ∧ b ≤ 0xBF)

/-- Valid second bytes of a three-byte UTF-8 sequence, per leading byte
(excluding overlong encodings and surrogates), as in Rust's
`core::str` UTF-8 validation. -/
def valid3Second (b0 b1 : Nat) : Bool :=
  (b0 == 0xE0 && decide (0xA0 ≤ b1 ∧ b1 ≤ 0xBF)) ||
  (decide (0xE1 ≤ b0 ∧ b0 ≤ 0xEC) && isCont b1) ||
  (b0 == 0xED && decide (0x80 ≤ b1 ∧ b1 ≤ 0x9F)) ||
  (decide (0xEE ≤ b0 ∧ b0 ≤ 0xEF) && isCont b1)

/-- Valid second bytes of a four-byte UTF-8 sequence, per leading byte
(excluding overlong encodings and code points above U+10FFFF), as in Rust's
`core::str` UTF-8 validation. -/
def valid4Second (b0 b1 : Nat) : Bool :=
  (b0 == 0xF0 && decide (0x90 ≤ b1 ∧ b1 ≤ 0xBF)) ||
  (decide (0xF1 ≤ b0 ∧ b0 ≤ 0xF3) && isCont b1) ||
  (b0 == 0xF4 && decide (0x80 ≤ b1 ∧ b1 ≤ 0x8F))

/-- Rust's `String::from_utf8_lossy` (reached through
`CStr::to_string_lossy`): total UTF-8 decoding where each maximal invalid
subpart is replaced by U+FFFD, following the skip distances of Rust's
validation (1 byte on a bad leading or second byte, 2 on a bad third,
3 on a bad fourth, and one replacement for a truncated tail). -/
def utf8Lossy : List Nat → List Nat
  | [] => []
  | b0 :: rest =>
    if b0 < 0x80 then
      b0 :: utf8Lossy rest
    else if 0xC2 ≤ b0 ∧ b0 ≤ 0xDF then
      match rest with
      | [] => [0xFFFD]
      | b1 :: rest1 =>
        if isCont b1 then
          ((b0 % 0x20) * 0x40 + b1 % 0x40) :: utf8Lossy rest1
        else
          0xFFFD :: utf8Lossy (b1 :: rest1)
    else if 0xE0 ≤ b0 ∧ b0 ≤ 0xEF then
      match rest with
      | [] => [0xFFFD]
      | b1 :: rest1 =>
        if valid3Second b0 b1 then
          match rest1 with
          | [] => [0xFFFD]
          | b2 :: rest2 =>
            if isCont b2 then
              ((b0 % 0x10) * 0x1000 + (b1 % 0x40) * 0x40 + b2 % 0x40) :: utf8Lossy rest2
            else
              0xFFFD :: utf8Lossy (b2 :: rest2)
        else
          0xFFFD :: utf8Lossy (b1 :: rest1)
    else if 0xF0 ≤ b0 ∧ b0 ≤ 0xF4 then
      match rest with
      | [] => [0xFFFD]
      | b1 :: rest1 =>
        if valid4Second b0 b1 then
          match rest1 with
          | [] => [0xFFFD]
          | b2 :: rest2 =>
            if isCont b2 then
              match rest2 with
              | [] => [0xFFFD]
              | b3 :: rest3 =>
                if isCont b3 then
                  ((b0 % 8) * 0x40000 + (b1 % 0x40) * 0x1000 +
                      (b2 % 0x40) * 0x40 + b3 % 0x40) :: utf8Lossy rest3
                else
                  0xFFFD :: utf8Lossy (b3 :: rest3)
            else
              0xFFFD :: utf8Lossy (b2 :: rest2)
        else
          0xFFFD :: utf8Lossy (b1 :: rest1)
    else
      0xFFFD :: utf8Lossy rest

/-- `SystemTray::new(organization, app_id)`: converts both strings with
`CString::new` (the `unwrap` halts on failure, before any native call), then
creates the Qt app handle, sets organization and app id, and initializes the
tray; the handle (supplied here by the environment as `rawHandle`, the value
returned by `bind::create_qt_app`) is stored with an empty `instance` slot. -/
def SystemTray.new (organization app_id : Bytes) (rawHandle : Nat) :
    Except SystemTrayError SystemTrayState × List Action :=
  match cstringNew organization with
  | .error e => (.error e, [])
  | .ok c_org =>
    match cstringNew app_id with
    | .error e => (.error e, [])
    | .ok c_id =>
      (.ok { handle := rawHandle, «instance» := none, nextTask := 0,
             spawned := [], detached := [] },
       [.native .create_qt_app, .native (.set_organization_name c_org),
        .native (.set_app_id c_id), .native .init_tray])

/-- `SystemTray::menu(menu)`: converts `menu.text` and `menu.id` with
`CString::new` (halting before any native call on failure), then calls
`bind::add_tray_menu_item` while holding the `handle` mutex guard, which is
released when the statement ends. -/
def SystemTray.menu (s : SystemTrayState) (text id : Bytes) :
    Except SystemTrayError SystemTrayState × List Action :=
  match cstringNew text with
  | .error e => (.error e, [])
  | .ok c_text =>
    match cstringNew id with
    | .error e => (.error e, [])
    | .ok c_id =>
      (.ok s, [.lockHandle, .native (.add_tray_menu_item c_text c_id), .unlockHandle])

/-- `SystemTray::icon(icon_data, icon_format)`: converts the format string
with `CString::new` (halting before any native call on failure), then calls
`bind::set_app_icon_from_data` with the byte pointer, the length and the
format while holding the `handle` mutex guard. -/
def SystemTray.icon (s : SystemTrayState) (icon_data icon_format : Bytes) :
    Except SystemTrayError SystemTrayState × List Action :=
  match cstringNew icon_format with
  | .error e => (.error e, [])
  | .ok c_format =>
    (.ok s,
     [.lockHandle,
      .native (.set_app_icon_from_data icon_data icon_data.length c_format),
      .unlockHandle])

/-- `SystemTray::start()`: locks the `handle` mutex only to copy the handle
out, releases it, spawns the background thread, and stores the new join
handle into the `instance` cell by plain assignment — any previously recorded
join handle is dropped (the old thread is detached, never joinable again).
Returns the new state, the calling thread's trace, and the spawned
background task's trace, whose `bind::run_qt_app` call is made without
holding the `handle` mutex. -/
def SystemTray.start (s : SystemTrayState) :
    SystemTrayState × List Action × List Action :=
  let t := s.nextTask
  ({ handle := s.handle, «instance» := some t, nextTask := t + 1,
     spawned := s.spawned ++ [t],
     detached := s.detached ++ s.«instance».toList },
   [.lockHandle, .unlockHandle, .spawn, .lockInstance, .unlockInstance],
   [.native (.run_qt_app s.handle)])

/-- `SystemTray::stop()`: calls `bind::request_quit_qt_app_safe` under the
`handle` mutex (released at the end of the inner block), then takes the
contents of the `instance` cell; if a join handle was recorded it is joined,
otherwise nothing further happens. -/
def SystemTray.stop (s : SystemTrayState) : SystemTrayState × List Action :=
  match s.«instance» with
  | some _ =>
    ({ s with «instance» := none },
     [.lockHandle, .native .request_quit_qt_app_safe, .unlockHandle,
      .lockInstance, .joinTask, .unlockInstance])
  | none =>
    (s,
     [.lockHandle, .native .request_quit_qt_app_safe, .unlockHandle,
      .lockInstance, .unlockInstance])

/-- `SystemTray::poll_event()`: locks the `handle` mutex for the whole call,
invokes `bind::poll_event`, and decodes the discriminant; on the
menu-item-clicked path `CString::from_raw` takes ownership of the payload
(no `bind::free_char_ptr` call is made) and `to_string_lossy` decodes it; an
unknown discriminant produces `PollEventError` with the formatted value. -/
def SystemTray.poll_event (s : SystemTrayState) (event : AppEvent) :
    Except SystemTrayError Event × List Action :=
  if event.type_ = AppEventType_None then
    (.ok Event.None, [.lockHandle, .native .poll_event, .unlockHandle])
  else if event.type_ = AppEventType_TrayClicked then
    (.ok Event.TrayClicked, [.lockHandle, .native .poll_event, .unlockHandle])
  else if event.type_ = AppEventType_TrayDoubleClicked then
    (.ok Event.TrayDoubleClicked, [.lockHandle, .native .poll_event, .unlockHandle])
  else if event.type_ = AppEventType_MenuItemClicked then
    (.ok (Event.MenuItemClicked (utf8Lossy event.menu_id_str)),
     [.lockHandle, .native .poll_event, .takeOwnership, .unlockHandle])
  else
    (.error (.PollEventError ("Unknown event type value: " ++ Nat.repr event.type_)),
     [.lockHandle, .native .poll_event, .unlockHandle])

/-- `Drop::drop` for `SystemTray`: runs on every `SystemTray` value when it
goes out of scope (each clone included, since the struct derives `Clone` and
the cells are shared `Arc`s): calls `stop()`, then locks the `handle` mutex
and, if the stored pointer is non-null, calls `bind::cleanup_qt_app`. -/
def SystemTray.drop (s : SystemTrayState) : SystemTrayState × List Action :=
  let stopped := SystemTray.stop s
  if stopped.1.handle = 0 then
    (stopped.1, stopped.2 ++ [.lockHandle, .unlockHandle])
  else
    (stopped.1, stopped.2 ++ [.lockHandle, .native .cleanup_qt_app, .unlockHandle])

/-- Scope exit of `n` clones of one session: each clone's `Drop` runs in turn
on the shared cells, concatenating their traces. -/
def dropClones : Nat → SystemTrayState → SystemTrayState × List Action
  | 0, s => (s, [])
  | n + 1, s =>
    let first := SystemTray.drop s
    let rest := dropClones n first.1
    (rest.1, first.2 ++ rest.2)

/-- The bytes of the string literal `MyOrganization`. -/
def myOrganizationBytes : Bytes :=
  [77, 121, 79, 114, 103, 97, 110, 105, 122, 97, 116, 105, 111, 110]

/-- The bytes of the string literal `MyApp`. -/
def myAppBytes : Bytes := [77, 121, 65, 112, 112]

/-- `Default::default` for `SystemTray`:
`Self::new("MyOrganization", "MyApp")`. -/
def SystemTray.default (rawHandle : Nat) :
    Except SystemTrayError SystemTrayState × List Action :=
  SystemTray.new myOrganizationBytes myAppBytes rawHandle

/-- The bytes of the string literal `exit`. -/
def exitBytes : Bytes := [101, 120, 105, 116]

/-- Checks that every native call in a trace happens while the `handle`
mutex is held, tracking the lock depth along the trace. -/
def handleGuardedAux : List Action → Nat → Bool
  | [], _ => true
  | .lockHandle :: tr, depth => handleGuardedAux tr (depth + 1)
  | .unlockHandle :: tr, depth => handleGuardedAux tr (depth - 1)
  | .native _ :: tr, depth => decide (0 < depth) && handleGuardedAux tr depth
  | _ :: tr, depth => handleGuardedAux tr depth

/-- A trace is handle-guarded when each of its native calls occurs between an
acquisition and the matching release of the `handle` mutex. -/
def handleGuarded (tr : List Action) : Bool := handleGuardedAux tr 0

/-- A concrete freshly constructed session: non-null handle, no background
task recorded. -/
def exampleState : SystemTrayState :=
  { handle := 1, «instance» := none, nextTask := 0, spawned := [], detached := [] }

/-- Claim C1: the code has no double-start guard.  Evaluating `start` twice
from a freshly constructed session shows the second call spawns a second
background thread over the same handle and overwrites the recorded join
handle, detaching the first task instead of refusing to spawn. -/
theorem start_double_start_spawns_second_task :
    (SystemTray.start (SystemTray.start exampleState).1).1.spawned = [0, 1] ∧
    (SystemTray.start (SystemTray.start exampleState).1).1.detached = [0] ∧
    (SystemTray.start (SystemTray.start exampleState).1).1.«instance» = some 1 ∧
    (SystemTray.start (SystemTray.start exampleState).1).2.2 =
      [.native (.run_qt_app 1)] := by
  decide

/-- Claim C2: `SystemTray` derives `Clone` while `Drop::drop` unconditionally
stops and cleans up, so when a session cloned once goes out of scope the
shared non-null handle is passed to `bind::cleanup_qt_app` twice — once per
clone — not exactly once per session as the spec requires. -/
theorem drop_two_clones_call_cleanup_twice :
    ((dropClones 2 exampleState).2.count (Action.native .cleanup_qt_app) = 2) ∧
    ((dropClones 1 exampleState).2.count (Action.native .cleanup_qt_app) = 1) := by
  decide

/-- Claim C3: each configuration string is converted with `CString::new`
before anything else happens; a string with an interior NUL makes the call
halt with the `Ffi` error (wrapping `NulError`) and an empty action trace —
no native call, no truncation, no forwarding — while NUL-free strings make
`new`, `menu` and `icon` succeed, forwarding the bytes unchanged. -/
theorem config_rejects_interior_nul :
    ∀ (organization app_id text id icon_format data : Bytes) (h : Nat)
      (s : SystemTrayState),
      (0 ∈ organization →
        SystemTray.new organization app_id h =
          (.error (.Ffi (organization.indexOf 0)), [])) ∧
      (0 ∉ organization → 0 ∈ app_id →
        SystemTray.new organization app_id h =
          (.error (.Ffi (app_id.indexOf 0)), [])) ∧
      (0 ∉ organization → 0 ∉ app_id →
        SystemTray.new organization app_id h =
          (.ok { handle := h, «instance» := none, nextTask := 0,
                 spawned := [], detached := [] },
           [.native .create_qt_app, .native (.set_organization_name organization),
            .native (.set_app_id app_id), .native .init_tray])) ∧
      (0 ∈ text →
        SystemTray.menu s text id = (.error (.Ffi (text.indexOf 0)), [])) ∧
      (0 ∉ text → 0 ∈ id →
        SystemTray.menu s text id = (.error (.Ffi (id.indexOf 0)), [])) ∧
      (0 ∉ text → 0 ∉ id →
        SystemTray.menu s text id =
          (.ok s, [.lockHandle, .native (.add_tray_menu_item text id),
                   .unlockHandle])) ∧
      (0 ∈ icon_format →
        SystemTray.icon s data icon_format =
          (.error (.Ffi (icon_format.indexOf 0)), [])) ∧
      (0 ∉ icon_format →
        SystemTray.icon s data icon_format =
          (.ok s, [.lockHandle,
                   .native (.set_app_icon_from_data data data.length icon_format),
                   .unlockHandle])) := by
  intro organization app_id text id icon_format data h s
  refine ⟨fun h1 => ?_, fun h1 h2 => ?_, fun h1 h2 => ?_, fun h1 => ?_,
          fun h1 h2 => ?_, fun h1 h2 => ?_, fun h1 => ?_, fun h1 => ?_⟩
  all_goals simp_all [SystemTray.new, SystemTray.menu, SystemTray.icon, cstringNew]

/-- Claim C3 witness: an organization string with a NUL at index 1 is
rejected with no native call, and NUL-free menu strings are forwarded. -/
theorem config_rejects_interior_nul_witness :
    SystemTray.new [65, 0, 66] [67] 5 = (.error (.Ffi 1), []) ∧
    SystemTray.menu exampleState exitBytes exitBytes =
      (.ok exampleState,
       [.lockHandle, .native (.add_tray_menu_item exitBytes exitBytes),
        .unlockHandle]) :=
  ⟨(config_rejects_interior_nul [65, 0, 66] [67] [] [] [] [] 5
      exampleState).1 (by decide),
   (config_rejects_interior_nul [65, 0, 66] [67] exitBytes exitBytes [] [] 5
      exampleState).2.2.2.2.2.1 (by decide) (by decide)⟩

/-- Claim C4: `poll_event` decodes the four recognized discriminants to
`Ok(None)`, `Ok(TrayClicked)`, `Ok(TrayDoubleClicked)` and
`Ok(MenuItemClicked(id))` with `id` the decoded payload; in particular the
payload `exit` decodes back to `exit`. -/
theorem poll_event_total_mapping :
    ∀ (s : SystemTrayState) (p : Bytes),
      (SystemTray.poll_event s ⟨AppEventType_None, p⟩).1 = .ok Event.None ∧
      (SystemTray.poll_event s ⟨AppEventType_TrayClicked, p⟩).1 =
        .ok Event.TrayClicked ∧
      (SystemTray.poll_event s ⟨AppEventType_TrayDoubleClicked, p⟩).1 =
        .ok Event.TrayDoubleClicked ∧
      (SystemTray.poll_event s ⟨AppEventType_MenuItemClicked, p⟩).1 =
        .ok (Event.MenuItemClicked (utf8Lossy p)) ∧
      (SystemTray.poll_event s ⟨AppEventType_MenuItemClicked, exitBytes⟩).1 =
        .ok (Event.MenuItemClicked exitBytes) := by
  intro s p
  exact ⟨rfl, rfl, rfl, rfl, rfl⟩

/-- Claim C5: any discriminant other than the four recognized ones makes
`poll_event` return (never panic) a `PollEventError` whose message is built
by formatting that exact raw discriminant value. -/
theorem poll_event_unrecognized_discriminant :
    ∀ (s : SystemTrayState) (ev : AppEvent),
      ev.type_ ≠ AppEventType_None →
      ev.type_ ≠ AppEventType_TrayClicked →
      ev.type_ ≠ AppEventType_TrayDoubleClicked →
      ev.type_ ≠ AppEventType_MenuItemClicked →
      SystemTray.poll_event s ev =
        (.error (.PollEventError
            ("Unknown event type value: " ++ Nat.repr ev.type_)),
         [.lockHandle, .native .poll_event, .unlockHandle]) := by
  intro s ev h1 h2 h3 h4
  simp [SystemTray.poll_event, h1, h2, h3, h4]

/-- Claim C5 witness: the out-of-range discriminant 7 yields the error
carrying the formatted value 7. -/
theorem poll_event_unrecognized_discriminant_witness :
    SystemTray.poll_event exampleState ⟨7, []⟩ =
      (.error (.PollEventError ("Unknown event type value: " ++ Nat.repr 7)),
       [.lockHandle, .native .poll_event, .unlockHandle]) :=
  poll_event_unrecognized_discriminant exampleState ⟨7, []⟩
    (by decide) (by decide) (by decide) (by decide)

/-- Claim C6: `stop` on a session with no recorded background task performs
no join (so it cannot block on one) and leaves the state unchanged; after
any `stop` the task slot is empty, so a second sequential `stop` joins
nothing and changes nothing. -/
theorem stop_noop_idempotent :
    ∀ (s : SystemTrayState),
      ((SystemTray.stop s).1.«instance» = none) ∧
      (s.«instance» = none →
        SystemTray.stop s =
          (s, [.lockHandle, .native .request_quit_qt_app_safe, .unlockHandle,
               .lockInstance, .unlockInstance])) ∧
      (s.«instance» = none → (SystemTray.stop s).2.count .joinTask = 0) ∧
      ((SystemTray.stop (SystemTray.stop s).1).1 = (SystemTray.stop s).1) ∧
      ((SystemTray.stop (SystemTray.stop s).1).2.count .joinTask = 0) := by
  intro s
  cases hs : s.«instance» <;>
    refine ⟨?_, fun h => ?_, fun h => ?_, ?_, ?_⟩ <;>
      simp_all [SystemTray.stop]

/-- Claim C6 witness: on a freshly constructed session, `stop` is join-free
and returns the state unchanged. -/
theorem stop_noop_idempotent_witness :
    SystemTray.stop exampleState =
      (exampleState,
       [.lockHandle, .native .request_quit_qt_app_safe, .unlockHandle,
        .lockInstance, .unlockInstance]) :=
  (stop_noop_idempotent exampleState).2.1 rfl

/-- Claim C7: no branch of `poll_event` ever asks the collaborator to free
the payload (`bind::free_char_ptr` never appears in the trace), and on the
menu-item-clicked path ownership of the payload is taken exactly once by
`CString::from_raw`, the decode producing the returned event. -/
theorem poll_event_payload_owned_once :
    ∀ (s : SystemTrayState) (ev : AppEvent),
      ((SystemTray.poll_event s ev).2.count (Action.native .free_char_ptr) = 0) ∧
      (ev.type_ = AppEventType_MenuItemClicked →
        (SystemTray.poll_event s ev).2.count .takeOwnership = 1 ∧
        (SystemTray.poll_event s ev).2 =
          [.lockHandle, .native .poll_event, .takeOwnership, .unlockHandle] ∧
        (SystemTray.poll_event s ev).1 =
          .ok (Event.MenuItemClicked (utf8Lossy ev.menu_id_str))) := by
  intro s ev
  constructor
  · unfold SystemTray.poll_event
    split_ifs <;> rfl
  · intro h
    refine ⟨?_, ?_, ?_⟩ <;>
      simp [SystemTray.poll_event, h, AppEventType_None, AppEventType_TrayClicked,
            AppEventType_TrayDoubleClicked, AppEventType_MenuItemClicked]

/-- Claim C7 witness: a concrete menu-item click owns its payload exactly
once and requests no native free. -/
theorem poll_event_payload_owned_once_witness :
    (SystemTray.poll_event exampleState ⟨3, exitBytes⟩).2.count .takeOwnership = 1 ∧
    (SystemTray.poll_event exampleState
        ⟨3, exitBytes⟩).2.count (Action.native .free_char_ptr) = 0 :=
  ⟨((poll_event_payload_owned_once exampleState ⟨3, exitBytes⟩).2 rfl).1,
   (poll_event_payload_owned_once exampleState ⟨3, exitBytes⟩).1⟩

/-- Claim C8 counterexample: `start` is among the operations the claim
covers, yet the background task it spawns performs its collaborator call
`bind::run_qt_app` without holding the handle guard — the guard was acquired
only to copy the handle out before spawning — so not every collaborator call
of the listed operations happens under the guard. -/
theorem start_background_run_unguarded :
    handleGuarded (SystemTray.start exampleState).2.2 = false := by
  decide

/-- Claim C8 (amended): `menu`, `icon`, `stop`'s quit request and
`poll_event` each make their collaborator call while holding the handle
guard — `menu`, `icon` and `stop` release it immediately after the call,
`poll_event` at return after decoding — while `start` acquires the guard
only to copy the handle before spawning, makes no collaborator call on the
calling thread, and its background task calls `bind::run_qt_app` without
the guard. -/
theorem handle_lock_discipline :
    ∀ (s : SystemTrayState) (text id data fmt : Bytes) (ev : AppEvent),
      (0 ∉ text → 0 ∉ id →
        (SystemTray.menu s text id).2 =
          [.lockHandle, .native (.add_tray_menu_item text id), .unlockHandle]) ∧
      (0 ∉ fmt →
        (SystemTray.icon s data fmt).2 =
          [.lockHandle, .native (.set_app_icon_from_data data data.length fmt),
           .unlockHandle]) ∧
      ((SystemTray.stop s).2.take 3 =
        [.lockHandle, .native .request_quit_qt_app_safe, .unlockHandle]) ∧
      (handleGuarded (SystemTray.menu s text id).2 = true) ∧
      (handleGuarded (SystemTray.icon s data fmt).2 = true) ∧
      (handleGuarded (SystemTray.stop s).2 = true) ∧
      (handleGuarded (SystemTray.poll_event s ev).2 = true) ∧
      ((SystemTray.start s).2.1 =
        [.lockHandle, .unlockHandle, .spawn, .lockInstance, .unlockInstance]) ∧
      ((SystemTray.start s).2.2 = [.native (.run_qt_app s.handle)]) := by
  intro s text id data fmt ev
  refine ⟨fun h1 h2 => ?_, fun h1 => ?_, ?_, ?_, ?_, ?_, ?_, rfl, rfl⟩
  · simp [SystemTray.menu, cstringNew, h1, h2]
  · simp [SystemTray.icon, cstringNew, h1]
  · cases hs : s.«instance» <;> simp [SystemTray.stop, hs]
  · by_cases h1 : 0 ∈ text
    · simp [SystemTray.menu, cstringNew, h1, handleGuarded, handleGuardedAux]
    · by_cases h2 : 0 ∈ id <;>
        simp [SystemTray.menu, cstringNew, h1, h2, handleGuarded, handleGuardedAux]
  · by_cases h1 : 0 ∈ fmt <;>
      simp [SystemTray.icon, cstringNew, h1, handleGuarded, handleGuardedAux]
  · cases hs : s.«instance» <;>
      simp [SystemTray.stop, hs, handleGuarded, handleGuardedAux]
  · unfold SystemTray.poll_event
    split_ifs <;> rfl

/-- Claim C8 (amended) witness: concrete NUL-free strings and a concrete
no-event poll exercise the guarded traces. -/
theorem handle_lock_discipline_witness :
    (SystemTray.menu exampleState exitBytes exitBytes).2 =
      [.lockHandle, .native (.add_tray_menu_item exitBytes exitBytes),
       .unlockHandle] ∧
    handleGuarded (SystemTray.poll_event exampleState ⟨0, []⟩).2 = true :=
  ⟨(handle_lock_discipline exampleState exitBytes exitBytes [] []
      ⟨0, []⟩).1 (by decide) (by decide),
   (handle_lock_discipline exampleState exitBytes exitBytes [] []
      ⟨0, []⟩).2.2.2.2.2.2.1⟩

/-- Claim C9: `Default::default` performs exactly the collaborator calls of
`new` applied to the strings `MyOrganization` and `MyApp`, and yields the
same initial session state: handle stored, no background task recorded. -/
theorem default_refines_new :
    ∀ (rawHandle : Nat),
      SystemTray.default rawHandle =
        SystemTray.new myOrganizationBytes myAppBytes rawHandle ∧
      (SystemTray.default rawHandle).1 =
        .ok { handle := rawHandle, «instance» := none, nextTask := 0,
              spawned := [], detached := [] } ∧
      (SystemTray.default rawHandle).2 =
        [.native .create_qt_app,
         .native (.set_organization_name myOrganizationBytes),
         .native (.set_app_id myAppBytes), .native .init_tray] := by
  intro rawHandle
  exact ⟨rfl, rfl, rfl⟩

/-- Claim C10: on the menu-item-clicked path the payload is decoded with the
total lossy UTF-8 conversion, so `poll_event` returns
`Ok(MenuItemClicked(_))` for every payload; invalid byte sequences are
replaced with U+FFFD rather than producing an error, shown on a lone 0xFF
byte, a truncated four-byte sequence, and a truncated three-byte sequence
inside valid ASCII. -/
theorem poll_event_lossy_never_fails :
    ∀ (s : SystemTrayState) (p : Bytes),
      (SystemTray.poll_event s ⟨AppEventType_MenuItemClicked, p⟩).1 =
        .ok (Event.MenuItemClicked (utf8Lossy p)) ∧
      utf8Lossy [255] = [0xFFFD] ∧
      utf8Lossy [0xF0, 0x9F] = [0xFFFD] ∧
      utf8Lossy [104, 0xE0, 0xA0, 105] = [104, 0xFFFD, 105] := by
  intro s p
  refine ⟨?_, by decide, by decide, by decide⟩
  simp [SystemTray.poll_event, AppEventType_None, AppEventType_TrayClicked,
        AppEventType_TrayDoubleClicked, AppEventType_MenuItemClicked]

end SystemTrayModel
